import Mathlib

/-
Verification of the contract layer of the Datadog MCP server (credential
resolution, transport client, per-operation response shaping) against a
shallow embedding of the Python source (src/auth.py, src/client.py,
src/tools/*.py).

Modelling conventions:
* JSON values are the inductive JValue; JSON numbers are modelled as
  integers (no proved property performs numeric computation on payload
  values, they are opaque pass-through data).
* Python exceptions are the inductive PyExc; fallible code runs in
  Except PyExc.  ValueError and DatadogClientError are the two exception
  classes the tool bodies catch; TypeError and AttributeError propagate.
* The HTTP send is an oracle `remote : DDRequest -> HttpResponse`; the
  Python client.request function is split into buildRequest (URL, headers,
  None-filtering of params/body) and handleResponse (status/error/empty
  handling), with the oracle standing for the actual network call.
* Every tool body in src/tools/*.py has the same shape: resolve
  credentials, issue one request, shape the payload, and convert
  DatadogClientError/ValueError into the failure envelope.  runTool is
  that shared shape; each operation instantiates it with its literal
  method, path, parameters and shaper, so each instantiation can be
  diffed line by line against the Python source.
-/

namespace DatadogMCP

/-- JSON-like values as handled by the Python code (dicts are association
lists preserving insertion order, as Python dicts do). -/
inductive JValue where
  | null
  | bool (b : Bool)
  | num (n : Int)
  | str (s : String)
  | arr (elems : List JValue)
  | obj (fields : List (String × JValue))

/-- Python exceptions relevant to this code base.  ddClientError models
client.DatadogClientError (message, optional status code). -/
inductive PyExc where
  | valueError (msg : String)
  | typeError (msg : String)
  | attrError (msg : String)
  | ddClientError (msg : String) (status : Option Int)
deriving DecidableEq, Repr

/-- auth.DatadogCredentials. -/
structure DatadogCredentials where
  api_key : String
  application_key : String
deriving DecidableEq, Repr

/-- Keycard TokenResponse as read by auth.get_datadog_credentials:
access_token, plus an optional raw mapping (getattr(token_response, "raw",
None) can yield None, modelled as none; string-valued entries are the only
ones the code reads). -/
structure TokenResponse where
  access_token : String
  raw : Option (List (String × String))

/-- Keycard AccessContext as read by auth.get_datadog_credentials.
errors_repr is the string rendering of get_errors() as interpolated by the
f-string in the source. -/
structure AccessContext where
  has_errors : Bool
  errors_repr : String
  access : String → TokenResponse

/-- The fixed Datadog API resource URL constant (auth.py / client.py). -/
def DATADOG_API_URL : String := "https://api.us5.datadoghq.com"

/-- Python truthiness of an optional string: None and "" are falsy. -/
def pyTruthy (o : Option String) : Bool :=
  match o with
  | some s => !s.isEmpty
  | none => false

/-- Python `a or b` on optional strings: yields a when a is truthy, else b. -/
def pyOrStr (a b : Option String) : Option String :=
  if pyTruthy a then a else b

/-- Message of the ValueError raised when no application key is found
(auth.py lines 72-76). -/
def missingAppKeyMsg : String :=
  "DD-APPLICATION-KEY not found in token response. Ensure the Keycard Datadog integration is configured to provide both keys."

/-- Message of the ValueError raised when the access context is None
(auth.py line 60). -/
def noContextMsg : String :=
  "No authentication context - Keycard auth may not be configured"

/-- auth.get_datadog_credentials(access_ctx): extract the two Datadog
credentials from a Keycard AccessContext, raising ValueError (modelled as
Except.error (PyExc.valueError _)) on the three failure branches. -/
def get_datadog_credentials (access_ctx : Option AccessContext) :
    Except PyExc DatadogCredentials :=
  match access_ctx with
  | none => .error (.valueError noContextMsg)
  | some ctx =>
    if ctx.has_errors then
      .error (.valueError ("Authentication errors: " ++ ctx.errors_repr))
    else
      let token_response := ctx.access DATADOG_API_URL
      let api_key := token_response.access_token
      let raw := token_response.raw.getD []
      let application_key :=
        pyOrStr (raw.lookup "dd_application_key") (raw.lookup "application_key")
      if pyTruthy application_key then
        .ok ⟨api_key, application_key.getD ""⟩
      else
        .error (.valueError missingAppKeyMsg)

/-- The TypeError message raised when get_datadog_credentials() is called
with no argument, as src/tools/slos.py, incidents.py and traces.py do:
access_ctx is a required positional parameter of the only definition of
the function in src/auth.py. -/
def noArgTypeErrorMsg : String :=
  "get_datadog_credentials() missing 1 required positional argument: access_ctx"

/-- Result of the zero-argument call get_datadog_credentials() found in
src/tools/slos.py, src/tools/incidents.py and src/tools/traces.py: Python
raises TypeError before the function body runs. -/
def get_datadog_credentials_noargs : Except PyExc DatadogCredentials :=
  .error (.typeError noArgTypeErrorMsg)

/-- One remote HTTP response as observed by client.request.  text models
response.text; jsonBody is some v when response.json() parses to v, and
none when response.json() raises.  An empty response.content corresponds
to text = "". -/
structure HttpResponse where
  status_code : Int
  text : String
  jsonBody : Option JValue

/-- The outbound HTTP request built by client.request. -/
structure DDRequest where
  method : String
  url : String
  headers : List (String × String)
  params : Option (List (String × JValue))
  body : Option (List (String × JValue))

def JValue.isNull : JValue → Bool
  | .null => true
  | _ => false

/-- client.request: "Filter out None values" — the dict comprehension
drops top-level entries whose value is None.  It is applied at the top
level only; nothing recurses into nested objects. -/
def dropNone (entries : List (String × JValue)) : List (String × JValue) :=
  entries.filter (fun kv => ! kv.2.isNull)

/-- The three headers set by client.request. -/
def requestHeaders (api_key application_key : String) : List (String × String) :=
  [("DD-API-KEY", api_key),
   ("DD-APPLICATION-KEY", application_key),
   ("Content-Type", "application/json")]

/-- The request client.request hands to httpx: absolute URL from the fixed
base plus path, the two credential headers, and params/body with top-level
None entries dropped. -/
def buildRequest (method path api_key application_key : String)
    (params body : Option (List (String × JValue))) : DDRequest :=
  { method := method
    url := DATADOG_API_URL ++ path
    headers := requestHeaders api_key application_key
    params := params.map dropNone
    body := body.map dropNone }

/-- Python truthiness of a JSON value. -/
def jTruthy : JValue → Bool
  | .null => false
  | .bool b => b
  | .num n => n != 0
  | .str s => !s.isEmpty
  | .arr es => !es.isEmpty
  | .obj fs => !fs.isEmpty

/-- Helper for pyJoinSemi: some when all elements are strings. -/
def allStrings : List JValue → Option (List String)
  | [] => some []
  | .str s :: rest => (allStrings rest).map (fun t => s :: t)
  | _ => none

/-- Python "; ".join(x): joins a list whose elements are all strings; a
string argument is iterated character by character; a dict argument is
iterated over its keys, which after a JSON parse are always strings, so
the join yields the "; "-joined keys; any other argument (None, bool,
number, or a list with a non-string element) raises TypeError (modelled
as none, caught by the surrounding except). -/
def pyJoinSemi : JValue → Option String
  | .arr es => (allStrings es).map (String.intercalate "; ")
  | .str s => some (String.intercalate "; " (s.toList.map (fun c => String.mk [c])))
  | .obj fields => some (String.intercalate "; " (fields.map (fun kv => kv.1)))
  | _ => none

/-- client.request error-message extraction for status >= 400: try to
parse the body, read .get("errors", []), join when truthy; any exception
in that block (parse failure, .get on a non-dict, unjoinable errors value)
falls back to the raw response text. -/
def errorMessage (resp : HttpResponse) : String :=
  match resp.jsonBody with
  | some (JValue.obj fields) =>
      let errors := (fields.lookup "errors").getD (JValue.arr [])
      if jTruthy errors then
        match pyJoinSemi errors with
        | some m => m
        | none => resp.text
      else resp.text
  | _ => resp.text

/-- Response handling tail of client.request: status >= 400 raises
DatadogClientError with the formatted message; status 204 or an empty
body returns the empty mapping; otherwise the parsed JSON body is
returned (response.json() raising on a malformed 2xx body is a
json.JSONDecodeError, a ValueError subclass, so it is modelled as
PyExc.valueError; the exact CPython message text is abstracted). -/
def handleResponse (resp : HttpResponse) : Except PyExc JValue :=
  if resp.status_code ≥ 400 then
    .error (.ddClientError
      ("Datadog API error (" ++ toString resp.status_code ++ "): " ++ errorMessage resp)
      (some resp.status_code))
  else if resp.status_code == 204 || resp.text == "" then
    .ok (JValue.obj [])
  else
    match resp.jsonBody with
    | some v => .ok v
    | none => .error (.valueError ("JSON decode error: " ++ resp.text))

/-- The uniform failure envelope every tool returns from its except
clauses. -/
def failureEnvelope (msg : String) : JValue :=
  .obj [("success", .bool false), ("error", .str msg), ("isError", .bool true)]

/-- The shared try/except of every tool body: DatadogClientError is
converted to the failure envelope using e.message, ValueError using
str(e); every other exception propagates to the caller. -/
def toolWrap (body : Except PyExc JValue) : Except PyExc JValue :=
  match body with
  | .ok v => .ok v
  | .error (.ddClientError m _) => .ok (failureEnvelope m)
  | .error (.valueError m) => .ok (failureEnvelope m)
  | .error e => .error e

/-- Outcome of one tool invocation: the returned value (or uncaught
exception) together with the list of outbound HTTP requests issued. -/
structure ToolOutcome where
  result : Except PyExc JValue
  calls : List DDRequest

/-- Shared structure of every tool body in src/tools/*.py: resolve
credentials, issue exactly one request, shape the payload; the whole body
runs under the shared try/except.  When credential resolution raises, the
transport is never reached and calls is empty. -/
def runTool (credsR : Except PyExc DatadogCredentials)
    (method path : String)
    (params body : Option (List (String × JValue)))
    (shaper : JValue → Except PyExc JValue)
    (remote : DDRequest → HttpResponse) : ToolOutcome :=
  match credsR with
  | .error e => ⟨toolWrap (.error e), []⟩
  | .ok creds =>
      let req := buildRequest method path creds.api_key creds.application_key params body
      ⟨toolWrap ((handleResponse (remote req)).bind shaper), [req]⟩

/-- Python dict.get(k, default) on a JSON value; calling .get on a
non-dict raises AttributeError. -/
def pyGetD (j : JValue) (k : String) (dflt : JValue) : Except PyExc JValue :=
  match j with
  | .obj fields => .ok ((fields.lookup k).getD dflt)
  | _ => .error (.attrError "get called on a non-dict value")

/-- Python dict.get(k) (default None). -/
def pyGet (j : JValue) (k : String) : Except PyExc JValue :=
  pyGetD j k .null

/-- x.get(k1, \x7b\x7d).get(k2), the two-level defensive access used by
the per-item shapers. -/
def pyGet2 (j : JValue) (k1 k2 : String) : Except PyExc JValue := do
  let a ← pyGetD j k1 (.obj [])
  pyGet a k2

/-- x.get(k1, \x7b\x7d).get(k2, \x7b\x7d).get(k3). -/
def pyGet3 (j : JValue) (k1 k2 k3 : String) : Except PyExc JValue := do
  let a ← pyGetD j k1 (.obj [])
  let b ← pyGetD a k2 (.obj [])
  pyGet b k3

/-- Iterating a JSON value as Python iterates: a list yields its elements,
a dict its keys, a string its characters; anything else raises TypeError. -/
def pyIter (j : JValue) : Except PyExc (List JValue) :=
  match j with
  | .arr es => .ok es
  | .obj fields => .ok (fields.map (fun kv => .str kv.1))
  | .str s => .ok (s.toList.map (fun c => .str (String.mk [c])))
  | _ => .error (.typeError "object is not iterable")

/-- Python len() on a JSON value. -/
def pyLen (j : JValue) : Except PyExc Int :=
  match j with
  | .arr es => .ok es.length
  | .obj fields => .ok fields.length
  | .str s => .ok s.length
  | _ => .error (.typeError "object has no len()")

/-- Field projection \x7bk: item.get(k) for k in keys\x7d with the output
keys equal to the source keys, as every flat per-item shaper does. -/
def projectFields (src : JValue) (keys : List String) :
    Except PyExc (List (String × JValue)) :=
  keys.mapM (fun k => (pyGet src k).map (fun v => (k, v)))

/-- A flat per-item projection producing a JSON object. -/
def shapeFlat (keys : List String) (item : JValue) : Except PyExc JValue :=
  (projectFields item keys).map JValue.obj

/-- data.get("meta", \x7b\x7d).get("page", \x7b\x7d).get("after"), the
cursor extraction shared by search_logs, list_events and search_spans. -/
def metaPageAfter (data : JValue) : Except PyExc JValue := do
  let m ← pyGetD data "meta" (.obj [])
  let p ← pyGetD m "page" (.obj [])
  pyGet p "after"

/-- Shared shape of the three cursor-paginated shapers: iterate
data.get("data", []), shape each item, and emit success/collection/count/
next_cursor with the cursor taken from meta.page.after. -/
def cursorShaper (collectionKey : String)
    (shapeItem : JValue → Except PyExc JValue)
    (data : JValue) : Except PyExc JValue := do
  let raw ← pyGetD data "data" (.arr [])
  let items ← pyIter raw
  let shaped ← items.mapM shapeItem
  let cursor ← metaPageAfter data
  .ok (.obj [("success", .bool true), (collectionKey, .arr shaped),
             ("count", .num (shaped.length : Int)), ("next_cursor", cursor)])

/-- Per-monitor projection in list_monitors (src/tools/monitors.py). -/
def shapeMonitorItem : JValue → Except PyExc JValue :=
  shapeFlat ["id", "name", "type", "query", "overall_state", "message",
             "tags", "created", "modified"]

/-- list_monitors shaper: the payload of /api/v1/monitor is itself the
list iterated over (for m in data). -/
def list_monitors_shaper (data : JValue) : Except PyExc JValue := do
  let items ← pyIter data
  let monitors ← items.mapM shapeMonitorItem
  .ok (.obj [("success", .bool true), ("monitors", .arr monitors),
             ("count", .num (monitors.length : Int))])

/-- get_monitor shaper (src/tools/monitors.py). -/
def get_monitor_shaper (data : JValue) : Except PyExc JValue := do
  let fields ← projectFields data
    ["id", "name", "type", "query", "overall_state", "message", "tags",
     "options", "state", "created", "modified", "creator"]
  .ok (.obj [("success", .bool true), ("monitor", .obj fields)])

/-- Per-host projection in list_hosts (src/tools/hosts.py). -/
def shapeHostItem : JValue → Except PyExc JValue :=
  shapeFlat ["name", "id", "aliases", "apps", "sources", "up", "is_muted",
             "last_reported_time", "meta"]

/-- list_hosts shaper (src/tools/hosts.py). -/
def list_hosts_shaper (data : JValue) : Except PyExc JValue := do
  let raw ← pyGetD data "host_list" (.arr [])
  let items ← pyIter raw
  let hosts ← items.mapM shapeHostItem
  let total_matching ← pyGet data "total_matching"
  let total_returned ← pyGet data "total_returned"
  .ok (.obj [("success", .bool true), ("hosts", .arr hosts),
             ("count", .num (hosts.length : Int)),
             ("total_matching", total_matching),
             ("total_returned", total_returned)])

/-- get_host_totals shaper (src/tools/hosts.py). -/
def get_host_totals_shaper (data : JValue) : Except PyExc JValue := do
  let total_active ← pyGet data "total_active"
  let total_up ← pyGet data "total_up"
  .ok (.obj [("success", .bool true), ("total_active", total_active),
             ("total_up", total_up)])

/-- Per-series projection in query_metrics (src/tools/metrics.py). -/
def shapeSeriesItem : JValue → Except PyExc JValue :=
  shapeFlat ["metric", "display_name", "scope", "expression", "unit",
             "pointlist", "length", "start", "end", "interval", "tag_set"]

/-- query_metrics shaper (src/tools/metrics.py). -/
def query_metrics_shaper (data : JValue) : Except PyExc JValue := do
  let raw ← pyGetD data "series" (.arr [])
  let items ← pyIter raw
  let series ← items.mapM shapeSeriesItem
  let from_date ← pyGet data "from_date"
  let to_date ← pyGet data "to_date"
  let query ← pyGet data "query"
  .ok (.obj [("success", .bool true), ("series", .arr series),
             ("count", .num (series.length : Int)),
             ("from_date", from_date), ("to_date", to_date),
             ("query", query)])

/-- list_active_metrics shaper: metrics passed through unshaped, count
via len() (src/tools/metrics.py). -/
def list_active_metrics_shaper (data : JValue) : Except PyExc JValue := do
  let metrics ← pyGetD data "metrics" (.arr [])
  let n ← pyLen metrics
  .ok (.obj [("success", .bool true), ("metrics", metrics), ("count", .num n)])

/-- Per-log projection in search_logs (src/tools/logs.py). -/
def shapeLogItem (log : JValue) : Except PyExc JValue := do
  let id ← pyGet log "id"
  let timestamp ← pyGet2 log "attributes" "timestamp"
  let status ← pyGet2 log "attributes" "status"
  let service ← pyGet2 log "attributes" "service"
  let message ← pyGet2 log "attributes" "message"
  let host ← pyGet2 log "attributes" "host"
  let tags ← pyGet2 log "attributes" "tags"
  .ok (.obj [("id", id), ("timestamp", timestamp), ("status", status),
             ("service", service), ("message", message), ("host", host),
             ("tags", tags)])

/-- search_logs shaper (src/tools/logs.py). -/
def search_logs_shaper : JValue → Except PyExc JValue :=
  cursorShaper "logs" shapeLogItem

/-- Per-event projection in list_events (src/tools/events.py); title comes
from attributes.evt.name. -/
def shapeEventItem (evt : JValue) : Except PyExc JValue := do
  let id ← pyGet evt "id"
  let type ← pyGet evt "type"
  let timestamp ← pyGet2 evt "attributes" "timestamp"
  let title ← pyGet3 evt "attributes" "evt" "name"
  let message ← pyGet2 evt "attributes" "message"
  let tags ← pyGet2 evt "attributes" "tags"
  let status ← pyGet2 evt "attributes" "status"
  .ok (.obj [("id", id), ("type", type), ("timestamp", timestamp),
             ("title", title), ("message", message), ("tags", tags),
             ("status", status)])

/-- list_events shaper (src/tools/events.py). -/
def list_events_shaper : JValue → Except PyExc JValue :=
  cursorShaper "events" shapeEventItem

/-- Per-span projection in search_spans (src/tools/traces.py). -/
def shapeSpanItem (span : JValue) : Except PyExc JValue := do
  let id ← pyGet span "id"
  let type ← pyGet span "type"
  let timestamp ← pyGet2 span "attributes" "timestamp"
  let service ← pyGet2 span "attributes" "service"
  let resource_name ← pyGet2 span "attributes" "resource_name"
  let span_id ← pyGet2 span "attributes" "span_id"
  let trace_id ← pyGet2 span "attributes" "trace_id"
  let duration ← pyGet2 span "attributes" "duration"
  let status ← pyGet2 span "attributes" "status"
  let host ← pyGet2 span "attributes" "host"
  let env ← pyGet2 span "attributes" "env"
  let operation_name ← pyGet2 span "attributes" "operation_name"
  .ok (.obj [("id", id), ("type", type), ("timestamp", timestamp),
             ("service", service), ("resource_name", resource_name),
             ("span_id", span_id), ("trace_id", trace_id),
             ("duration", duration), ("status", status), ("host", host),
             ("env", env), ("operation_name", operation_name)])

/-- search_spans shaper (src/tools/traces.py). -/
def search_spans_shaper : JValue → Except PyExc JValue :=
  cursorShaper "spans" shapeSpanItem

/-- Per-dashboard projection in list_dashboards (src/tools/dashboards.py). -/
def shapeDashboardItem : JValue → Except PyExc JValue :=
  shapeFlat ["id", "title", "description", "layout_type", "url",
             "created_at", "modified_at", "author_handle"]

/-- list_dashboards shaper (src/tools/dashboards.py). -/
def list_dashboards_shaper (data : JValue) : Except PyExc JValue := do
  let raw ← pyGetD data "dashboards" (.arr [])
  let items ← pyIter raw
  let dashboards ← items.mapM shapeDashboardItem
  .ok (.obj [("success", .bool true), ("dashboards", .arr dashboards),
             ("count", .num (dashboards.length : Int))])

/-- Per-widget summary in get_dashboard (src/tools/dashboards.py). -/
def shapeWidgetItem (w : JValue) : Except PyExc JValue := do
  let id ← pyGet w "id"
  let type ← pyGet2 w "definition" "type"
  let title ← pyGet2 w "definition" "title"
  .ok (.obj [("id", id), ("type", type), ("title", title)])

/-- get_dashboard shaper (src/tools/dashboards.py). -/
def get_dashboard_shaper (data : JValue) : Except PyExc JValue := do
  let rawWidgets ← pyGetD data "widgets" (.arr [])
  let ws ← pyIter rawWidgets
  let widgets ← ws.mapM shapeWidgetItem
  let id ← pyGet data "id"
  let title ← pyGet data "title"
  let description ← pyGet data "description"
  let layout_type ← pyGet data "layout_type"
  let url ← pyGet data "url"
  let template_variables ← pyGet data "template_variables"
  let created_at ← pyGet data "created_at"
  let modified_at ← pyGet data "modified_at"
  let author_handle ← pyGet data "author_handle"
  .ok (.obj [("success", .bool true),
             ("dashboard", .obj
               [("id", id), ("title", title), ("description", description),
                ("layout_type", layout_type), ("url", url),
                ("widgets", .arr widgets),
                ("widget_count", .num (widgets.length : Int)),
                ("template_variables", template_variables),
                ("created_at", created_at), ("modified_at", modified_at),
                ("author_handle", author_handle)])])

/-- Per-incident projection in list_incidents (src/tools/incidents.py). -/
def shapeIncidentItem (inc : JValue) : Except PyExc JValue := do
  let id ← pyGet inc "id"
  let type ← pyGet inc "type"
  let title ← pyGet2 inc "attributes" "title"
  let status ← pyGet2 inc "attributes" "status"
  let severity ← pyGet2 inc "attributes" "severity"
  let created ← pyGet2 inc "attributes" "created"
  let modified ← pyGet2 inc "attributes" "modified"
  let resolved ← pyGet2 inc "attributes" "resolved"
  let customer_impact_scope ← pyGet2 inc "attributes" "customer_impact_scope"
  .ok (.obj [("id", id), ("type", type), ("title", title),
             ("status", status), ("severity", severity),
             ("created", created), ("modified", modified),
             ("resolved", resolved),
             ("customer_impact_scope", customer_impact_scope)])

/-- list_incidents shaper (src/tools/incidents.py). -/
def list_incidents_shaper (data : JValue) : Except PyExc JValue := do
  let raw ← pyGetD data "data" (.arr [])
  let items ← pyIter raw
  let incidents ← items.mapM shapeIncidentItem
  .ok (.obj [("success", .bool true), ("incidents", .arr incidents),
             ("count", .num (incidents.length : Int))])

/-- get_incident shaper (src/tools/incidents.py). -/
def get_incident_shaper (data : JValue) : Except PyExc JValue := do
  let inc ← pyGetD data "data" (.obj [])
  let attrs ← pyGetD inc "attributes" (.obj [])
  let id ← pyGet inc "id"
  let type ← pyGet inc "type"
  let title ← pyGet attrs "title"
  let status ← pyGet attrs "status"
  let severity ← pyGet attrs "severity"
  let created ← pyGet attrs "created"
  let modified ← pyGet attrs "modified"
  let resolved ← pyGet attrs "resolved"
  let detected ← pyGet attrs "detected"
  let customer_impact_scope ← pyGet attrs "customer_impact_scope"
  let customer_impact_start ← pyGet attrs "customer_impact_start"
  let customer_impact_end ← pyGet attrs "customer_impact_end"
  let fields ← pyGet attrs "fields"
  let notification_handles ← pyGet attrs "notification_handles"
  .ok (.obj [("success", .bool true),
             ("incident", .obj
               [("id", id), ("type", type), ("title", title),
                ("status", status), ("severity", severity),
                ("created", created), ("modified", modified),
                ("resolved", resolved), ("detected", detected),
                ("customer_impact_scope", customer_impact_scope),
                ("customer_impact_start", customer_impact_start),
                ("customer_impact_end", customer_impact_end),
                ("fields", fields),
                ("notification_handles", notification_handles)])])

/-- Per-SLO projection in list_slos (src/tools/slos.py). -/
def shapeSloItem : JValue → Except PyExc JValue :=
  shapeFlat ["id", "name", "description", "type", "tags", "thresholds",
             "created_at", "modified_at"]

/-- list_slos shaper (src/tools/slos.py). -/
def list_slos_shaper (data : JValue) : Except PyExc JValue := do
  let raw ← pyGetD data "data" (.arr [])
  let items ← pyIter raw
  let slos ← items.mapM shapeSloItem
  .ok (.obj [("success", .bool true), ("slos", .arr slos),
             ("count", .num (slos.length : Int))])

/-- get_slo shaper (src/tools/slos.py). -/
def get_slo_shaper (data : JValue) : Except PyExc JValue := do
  let slo_data ← pyGetD data "data" (.obj [])
  let fields ← projectFields slo_data
    ["id", "name", "description", "type", "tags", "thresholds", "query",
     "groups", "monitor_ids", "created_at", "modified_at", "creator"]
  .ok (.obj [("success", .bool true), ("slo", .obj fields)])

/-- get_slo_history shaper; slo_id is echoed from the argument
(src/tools/slos.py). -/
def get_slo_history_shaper (slo_id : String) (data : JValue) :
    Except PyExc JValue := do
  let history ← pyGetD data "data" (.obj [])
  let overall ← pyGet history "overall"
  let thresholds ← pyGet history "thresholds"
  let series ← pyGet history "series"
  .ok (.obj [("success", .bool true), ("slo_id", .str slo_id),
             ("overall", overall), ("thresholds", thresholds),
             ("series", series)])

def optStr : Option String → JValue
  | some s => .str s
  | none => .null

def optInt : Option Int → JValue
  | some n => .num n
  | none => .null

/-- Python str(b).lower() on a bool: "true" or "false". -/
def pyBoolStr (b : Bool) : String := if b then "true" else "false"

/-
The 16 registered operations.  Operations whose tool body reads
ctx.get_state("keycardai") take the resulting Option AccessContext;
list_slos, get_slo, get_slo_history, list_incidents, get_incident and
search_spans never read it and call get_datadog_credentials with no
argument, modelled by get_datadog_credentials_noargs.
-/

/-- list_monitors (src/tools/monitors.py). -/
def list_monitors (access_ctx : Option AccessContext)
    (remote : DDRequest → HttpResponse)
    (name tags monitor_tags : Option String) (page page_size : Int) :
    ToolOutcome :=
  runTool (get_datadog_credentials access_ctx) "GET" "/api/v1/monitor"
    (some [("name", optStr name), ("tags", optStr tags),
           ("monitor_tags", optStr monitor_tags), ("page", .num page),
           ("page_size", .num page_size)])
    none list_monitors_shaper remote

/-- get_monitor (src/tools/monitors.py). -/
def get_monitor (access_ctx : Option AccessContext)
    (remote : DDRequest → HttpResponse)
    (monitor_id : Int) (group_states : Option String) : ToolOutcome :=
  runTool (get_datadog_credentials access_ctx) "GET"
    ("/api/v1/monitor/" ++ toString monitor_id)
    (some [("group_states", optStr group_states)])
    none get_monitor_shaper remote

/-- The query parameters list_hosts builds (src/tools/hosts.py):
include_muted_hosts_data is always present, as str(bool).lower(). -/
def list_hosts_params (filter sort_field sort_dir : Option String)
    (start count : Int) (include_muted_hosts_data : Bool) :
    List (String × JValue) :=
  [("filter", optStr filter), ("sort_field", optStr sort_field),
   ("sort_dir", optStr sort_dir), ("start", .num start),
   ("count", .num count),
   ("include_muted_hosts_data", .str (pyBoolStr include_muted_hosts_data))]

/-- list_hosts (src/tools/hosts.py). -/
def list_hosts (access_ctx : Option AccessContext)
    (remote : DDRequest → HttpResponse)
    (filter sort_field sort_dir : Option String) (start count : Int)
    (include_muted_hosts_data : Bool) : ToolOutcome :=
  runTool (get_datadog_credentials access_ctx) "GET" "/api/v1/hosts"
    (some (list_hosts_params filter sort_field sort_dir start count
             include_muted_hosts_data))
    none list_hosts_shaper remote

/-- get_host_totals (src/tools/hosts.py). -/
def get_host_totals (access_ctx : Option AccessContext)
    (remote : DDRequest → HttpResponse) (from_ts : Option Int) :
    ToolOutcome :=
  runTool (get_datadog_credentials access_ctx) "GET" "/api/v1/hosts/totals"
    (some [("from", optInt from_ts)])
    none get_host_totals_shaper remote

/-- query_metrics (src/tools/metrics.py). -/
def query_metrics (access_ctx : Option AccessContext)
    (remote : DDRequest → HttpResponse)
    (query : String) (from_ts to_ts : Int) : ToolOutcome :=
  runTool (get_datadog_credentials access_ctx) "GET" "/api/v1/query"
    (some [("query", .str query), ("from", .num from_ts),
           ("to", .num to_ts)])
    none query_metrics_shaper remote

/-- list_active_metrics (src/tools/metrics.py). -/
def list_active_metrics (access_ctx : Option AccessContext)
    (remote : DDRequest → HttpResponse)
    (from_ts : Int) (host tag_filter : Option String) : ToolOutcome :=
  runTool (get_datadog_credentials access_ctx) "GET" "/api/v1/metrics"
    (some [("from", .num from_ts), ("host", optStr host),
           ("tag_filter", optStr tag_filter)])
    none list_active_metrics_shaper remote

/-- The JSON body search_logs builds (src/tools/logs.py): filter and page
are nested objects whose unset entries are the literal null. -/
def search_logs_body (query : String) (from_ts to_ts : Option String)
    (limit : Int) (sort : String) (cursor : Option String) :
    List (String × JValue) :=
  [("filter", .obj [("query", .str query), ("from", optStr from_ts),
                    ("to", optStr to_ts)]),
   ("page", .obj [("limit", .num limit), ("cursor", optStr cursor)]),
   ("sort", .str sort)]

/-- search_logs (src/tools/logs.py). -/
def search_logs (access_ctx : Option AccessContext)
    (remote : DDRequest → HttpResponse)
    (query : String) (from_ts to_ts : Option String) (limit : Int)
    (sort : String) (cursor : Option String) : ToolOutcome :=
  runTool (get_datadog_credentials access_ctx) "POST"
    "/api/v2/logs/events/search" none
    (some (search_logs_body query from_ts to_ts limit sort cursor))
    search_logs_shaper remote

/-- list_events (src/tools/events.py). -/
def list_events (access_ctx : Option AccessContext)
    (remote : DDRequest → HttpResponse)
    (filter_query filter_from filter_to : Option String) (sort : String)
    (page_limit : Int) (page_cursor : Option String) : ToolOutcome :=
  runTool (get_datadog_credentials access_ctx) "GET" "/api/v2/events"
    (some [("filter[query]", optStr filter_query),
           ("filter[from]", optStr filter_from),
           ("filter[to]", optStr filter_to), ("sort", .str sort),
           ("page[limit]", .num page_limit),
           ("page[cursor]", optStr page_cursor)])
    none list_events_shaper remote

/-- The query parameters list_dashboards builds (src/tools/dashboards.py):
the two filter booleans become str(b).lower() only when set, None
otherwise. -/
def list_dashboards_params (filter_shared filter_deleted : Option Bool)
    (count start : Int) : List (String × JValue) :=
  [("filter[shared]",
     match filter_shared with
     | some b => .str (pyBoolStr b)
     | none => .null),
   ("filter[deleted]",
     match filter_deleted with
     | some b => .str (pyBoolStr b)
     | none => .null),
   ("count", .num count), ("start", .num start)]

/-- list_dashboards (src/tools/dashboards.py). -/
def list_dashboards (access_ctx : Option AccessContext)
    (remote : DDRequest → HttpResponse)
    (filter_shared filter_deleted : Option Bool) (count start : Int) :
    ToolOutcome :=
  runTool (get_datadog_credentials access_ctx) "GET" "/api/v1/dashboard"
    (some (list_dashboards_params filter_shared filter_deleted count start))
    none list_dashboards_shaper remote

/-- get_dashboard (src/tools/dashboards.py): no params, no body. -/
def get_dashboard (access_ctx : Option AccessContext)
    (remote : DDRequest → HttpResponse) (dashboard_id : String) :
    ToolOutcome :=
  runTool (get_datadog_credentials access_ctx) "GET"
    ("/api/v1/dashboard/" ++ dashboard_id)
    none none get_dashboard_shaper remote

/-- list_incidents (src/tools/incidents.py): the tool body never reads
the access context and calls get_datadog_credentials() with no argument. -/
def list_incidents (remote : DDRequest → HttpResponse)
    (include_param : Option String) (page_size page_offset : Int) : ToolOutcome :=
  runTool get_datadog_credentials_noargs "GET" "/api/v2/incidents"
    (some [("include", optStr include_param), ("page[size]", .num page_size),
           ("page[offset]", .num page_offset)])
    none list_incidents_shaper remote

/-- get_incident (src/tools/incidents.py): zero-argument credential call. -/
def get_incident (remote : DDRequest → HttpResponse)
    (incident_id : String) (include_param : Option String) : ToolOutcome :=
  runTool get_datadog_credentials_noargs "GET"
    ("/api/v2/incidents/" ++ incident_id)
    (some [("include", optStr include_param)])
    none get_incident_shaper remote

/-- list_slos (src/tools/slos.py): zero-argument credential call. -/
def list_slos (remote : DDRequest → HttpResponse)
    (ids query tags_query metrics_query : Option String)
    (limit offset : Int) : ToolOutcome :=
  runTool get_datadog_credentials_noargs "GET" "/api/v1/slo"
    (some [("ids", optStr ids), ("query", optStr query),
           ("tags_query", optStr tags_query),
           ("metrics_query", optStr metrics_query), ("limit", .num limit),
           ("offset", .num offset)])
    none list_slos_shaper remote

/-- The query parameters get_slo builds (src/tools/slos.py):
with_configured_alert_ids is always present, as str(bool).lower(). -/
def get_slo_params (with_configured_alert_ids : Bool) :
    List (String × JValue) :=
  [("with_configured_alert_ids",
    .str (pyBoolStr with_configured_alert_ids))]

/-- get_slo (src/tools/slos.py): zero-argument credential call. -/
def get_slo (remote : DDRequest → HttpResponse) (slo_id : String)
    (with_configured_alert_ids : Bool) : ToolOutcome :=
  runTool get_datadog_credentials_noargs "GET" ("/api/v1/slo/" ++ slo_id)
    (some (get_slo_params with_configured_alert_ids))
    none get_slo_shaper remote

/-- get_slo_history (src/tools/slos.py): zero-argument credential call.
The Python target parameter is float | None; its numeric value is opaque
to every property proved here, so it is modelled as Option Int. -/
def get_slo_history (remote : DDRequest → HttpResponse) (slo_id : String)
    (from_ts to_ts : Int) (target : Option Int) : ToolOutcome :=
  runTool get_datadog_credentials_noargs "GET"
    ("/api/v1/slo/" ++ slo_id ++ "/history")
    (some [("from_ts", .num from_ts), ("to_ts", .num to_ts),
           ("target", optInt target)])
    none (get_slo_history_shaper slo_id) remote

/-- The JSON body search_spans builds (src/tools/traces.py): filter and
page are nested inside data.attributes; unset entries are the literal
null. -/
def search_spans_body (query : String) (from_ts to_ts : Option String)
    (limit : Int) (sort : String) (cursor : Option String) :
    List (String × JValue) :=
  [("data", .obj
     [("type", .str "search_request"),
      ("attributes", .obj
        [("filter", .obj [("query", .str query), ("from", optStr from_ts),
                          ("to", optStr to_ts)]),
         ("page", .obj [("limit", .num limit), ("cursor", optStr cursor)]),
         ("sort", .str sort)])])]

/-- search_spans (src/tools/traces.py): zero-argument credential call. -/
def search_spans (remote : DDRequest → HttpResponse)
    (query : String) (from_ts to_ts : Option String) (limit : Int)
    (sort : String) (cursor : Option String) : ToolOutcome :=
  runTool get_datadog_credentials_noargs "POST"
    "/api/v2/spans/events/search" none
    (some (search_spans_body query from_ts to_ts limit sort cursor))
    search_spans_shaper remote

/-- A remote oracle returning 200 with an empty JSON object, used by the
concrete evaluations below. -/
def remoteEmpty : DDRequest → HttpResponse :=
  fun _ => ⟨200, "\x7b\x7d", some (.obj [])⟩

/-- A concrete error-free access context delivering both keys, used by
the concrete evaluations below. -/
def ctxOK : AccessContext :=
  { has_errors := false
    errors_repr := ""
    access := fun _ => ⟨"api-key-1", some [("dd_application_key", "app-key-1")]⟩ }

/-- Lookup of a field in a JSON object (none on non-objects); used to
state properties of shaped results. -/
def envGet (j : JValue) (k : String) : Option JValue :=
  match j with
  | .obj fields => fields.lookup k
  | _ => none

/-- C1: the claim states that every credential-resolution failure yields
the failure envelope with no uncaught propagation, in particular for
list_slos, get_slo, get_slo_history, list_incidents, get_incident and
search_spans.  Evaluating those six operations at concrete inputs shows
the code instead raises an uncaught TypeError on every invocation (the
zero-argument call to get_datadog_credentials) and issues no outbound
request, so they can never return any envelope. -/
theorem noarg_tools_raise_uncaught_type_error :
    ((list_slos remoteEmpty none none none none 100 0).result =
        .error (.typeError noArgTypeErrorMsg) ∧
      (list_slos remoteEmpty none none none none 100 0).calls = []) ∧
    ((get_slo remoteEmpty "slo-1" false).result =
        .error (.typeError noArgTypeErrorMsg) ∧
      (get_slo remoteEmpty "slo-1" false).calls = []) ∧
    ((get_slo_history remoteEmpty "slo-1" 0 100 none).result =
        .error (.typeError noArgTypeErrorMsg) ∧
      (get_slo_history remoteEmpty "slo-1" 0 100 none).calls = []) ∧
    ((list_incidents remoteEmpty none 25 0).result =
        .error (.typeError noArgTypeErrorMsg) ∧
      (list_incidents remoteEmpty none 25 0).calls = []) ∧
    ((get_incident remoteEmpty "inc-1" none).result =
        .error (.typeError noArgTypeErrorMsg) ∧
      (get_incident remoteEmpty "inc-1" none).calls = []) ∧
    ((search_spans remoteEmpty "*" none none 25 "-timestamp" none).result =
        .error (.typeError noArgTypeErrorMsg) ∧
      (search_spans remoteEmpty "*" none none 25 "-timestamp" none).calls = []) :=
  ⟨⟨rfl, rfl⟩, ⟨rfl, rfl⟩, ⟨rfl, rfl⟩, ⟨rfl, rfl⟩, ⟨rfl, rfl⟩, rfl, rfl⟩

/-- C2 counterexample: search_logs invoked with from_ts, to_ts and cursor
unset sends a request whose JSON body still contains the literal null for
filter.from, filter.to and page.cursor — the top-level None filter in
client.request does not recurse into the nested filter and page objects. -/
theorem search_logs_sends_nested_nulls :
    (search_logs (some ctxOK) remoteEmpty "*" none none 25 "-timestamp"
        none).calls.map (fun r => r.body) =
      [some [("filter", JValue.obj [("query", .str "*"), ("from", JValue.null),
                                    ("to", JValue.null)]),
             ("page", JValue.obj [("limit", .num 25),
                                  ("cursor", JValue.null)]),
             ("sort", .str "-timestamp")]] := rfl

/-- C2 amended: every top-level query or body entry of the outbound
request is non-null (client.request drops top-level None entries before
sending); entries nested inside body objects are not filtered. -/
theorem outbound_top_level_entries_never_null
    (method path api_key application_key : String)
    (params body : Option (List (String × JValue))) :
    (∀ kv ∈ ((buildRequest method path api_key application_key params
        body).params.getD []), kv.2.isNull = false) ∧
    (∀ kv ∈ ((buildRequest method path api_key application_key params
        body).body.getD []), kv.2.isNull = false) := by
  constructor
  · intro kv hkv
    cases params with
    | none => simp [buildRequest] at hkv
    | some l =>
      simp [buildRequest, dropNone, List.mem_filter] at hkv
      simpa using hkv.2
  · intro kv hkv
    cases body with
    | none => simp [buildRequest] at hkv
    | some l =>
      simp [buildRequest, dropNone, List.mem_filter] at hkv
      simpa using hkv.2

/-- Witness for the amended C2 theorem at a concrete request containing
one null and one non-null entry. -/
theorem outbound_top_level_entries_never_null_witness :
    (("page", JValue.num 0)).2.isNull = false :=
  (outbound_top_level_entries_never_null "GET" "/api/v1/monitor" "a" "b"
      (some [("name", JValue.null), ("page", JValue.num 0)]) none).1
    ("page", JValue.num 0) (by simp [buildRequest, dropNone, JValue.isNull])

/-- A concrete access context whose has_errors() is true, used by the
concrete evaluations below. -/
def ctxBad : AccessContext :=
  { has_errors := true
    errors_repr := "[AuthError]"
    access := fun _ => ⟨"", none⟩ }

/-- C3: every operation that consumes the per-invocation AccessContext,
given a context with has_errors() true, returns the failure envelope with
the Authentication errors message rendered from get_errors() and issues
zero outbound HTTP calls. -/
theorem auth_error_ctx_envelope_and_no_call
    (ctx : AccessContext) (h : ctx.has_errors = true)
    (remote : DDRequest → HttpResponse)
    (os1 os2 os3 os4 : Option String) (i1 i2 : Int) (s1 s2 : String)
    (b1 : Bool) (oi1 : Option Int) (ob1 ob2 : Option Bool) :
    list_monitors (some ctx) remote os1 os2 os3 i1 i2 =
      ⟨.ok (failureEnvelope ("Authentication errors: " ++ ctx.errors_repr)), []⟩ ∧
    get_monitor (some ctx) remote i1 os1 =
      ⟨.ok (failureEnvelope ("Authentication errors: " ++ ctx.errors_repr)), []⟩ ∧
    list_hosts (some ctx) remote os1 os2 os3 i1 i2 b1 =
      ⟨.ok (failureEnvelope ("Authentication errors: " ++ ctx.errors_repr)), []⟩ ∧
    get_host_totals (some ctx) remote oi1 =
      ⟨.ok (failureEnvelope ("Authentication errors: " ++ ctx.errors_repr)), []⟩ ∧
    query_metrics (some ctx) remote s1 i1 i2 =
      ⟨.ok (failureEnvelope ("Authentication errors: " ++ ctx.errors_repr)), []⟩ ∧
    list_active_metrics (some ctx) remote i1 os1 os2 =
      ⟨.ok (failureEnvelope ("Authentication errors: " ++ ctx.errors_repr)), []⟩ ∧
    search_logs (some ctx) remote s1 os1 os2 i1 s2 os3 =
      ⟨.ok (failureEnvelope ("Authentication errors: " ++ ctx.errors_repr)), []⟩ ∧
    list_events (some ctx) remote os1 os2 os3 s2 i1 os4 =
      ⟨.ok (failureEnvelope ("Authentication errors: " ++ ctx.errors_repr)), []⟩ ∧
    list_dashboards (some ctx) remote ob1 ob2 i1 i2 =
      ⟨.ok (failureEnvelope ("Authentication errors: " ++ ctx.errors_repr)), []⟩ ∧
    get_dashboard (some ctx) remote s1 =
      ⟨.ok (failureEnvelope ("Authentication errors: " ++ ctx.errors_repr)), []⟩ := by
  have hc : get_datadog_credentials (some ctx) =
      .error (.valueError ("Authentication errors: " ++ ctx.errors_repr)) := by
    simp [get_datadog_credentials, h]
  refine ⟨?_, ?_, ?_, ?_, ?_, ?_, ?_, ?_, ?_, ?_⟩ <;>
    simp [list_monitors, get_monitor, list_hosts, get_host_totals,
      query_metrics, list_active_metrics, search_logs, list_events,
      list_dashboards, get_dashboard, runTool, hc, toolWrap]

/-- Witness for the C3 theorem: a concrete erroring context on
list_monitors. -/
theorem auth_error_ctx_witness :
    list_monitors (some ctxBad) remoteEmpty none none none 0 50 =
      ⟨.ok (failureEnvelope ("Authentication errors: [AuthError]")), []⟩ :=
  (auth_error_ctx_envelope_and_no_call ctxBad rfl remoteEmpty
    none none none none 0 50 "" "" false none none none).1

/-- A 404 response whose JSON body is an object with the non-empty errors
list [1] (a list whose element is not a string). -/
def resp404errList1 : HttpResponse :=
  ⟨404, "\x7b\"errors\": [1]\x7d", some (.obj [("errors", .arr [.num 1])])⟩

def remote404errList1 : DDRequest → HttpResponse := fun _ => resp404errList1

/-- A 404 response whose JSON body is an object whose errors entry is
the non-empty string "ab". -/
def resp404errStr : HttpResponse :=
  ⟨404, "\x7b\"errors\": \"ab\"\x7d", some (.obj [("errors", .str "ab")])⟩

def remote404errStr : DDRequest → HttpResponse := fun _ => resp404errStr

/-- C4 counterexample, two concrete 404 responses.  First: an errors
entry that is the non-empty string "ab" — not a list, so the claim
prescribes the raw response text — makes the code join the characters
of the string and report "a; b".  Second: the non-empty errors list [1] —
for which the claim prescribes the joined list — makes the code fall
back to the raw response text (joining a non-string list raises
TypeError, swallowed by the except). -/
theorem error_message_deviates_from_claim :
    ((list_monitors (some ctxOK) remote404errStr none none none 0
        50).result =
      .ok (failureEnvelope ("Datadog API error (404): a; b")) ∧
     ("Datadog API error (404): a; b" : String) ≠
      "Datadog API error (404): \x7b\"errors\": \"ab\"\x7d") ∧
    ((list_monitors (some ctxOK) remote404errList1 none none none 0
        50).result =
      .ok (failureEnvelope
        ("Datadog API error (404): \x7b\"errors\": [1]\x7d")) ∧
     ("Datadog API error (404): \x7b\"errors\": [1]\x7d" : String) ≠
      "Datadog API error (404): 1") :=
  ⟨⟨rfl, by decide⟩, rfl, by decide⟩

theorem allStrings_map_str (ss : List String) :
    allStrings (ss.map JValue.str) = some ss := by
  induction ss with
  | nil => rfl
  | cons a t ih => simp [allStrings, ih]

/-- C4 amended: for every operation instance whose credentials resolve,
a remote status >= 400 yields the failure envelope with error
"Datadog API error (<status>): <message>"; <message> is the "; "-joined
errors entry when the body parses as a JSON object carrying a non-empty
all-string errors list; it is the raw response text when errors is
missing or the empty list, when the body does not parse as JSON, and
when errors is a non-empty list that is not all strings (the join raises
and is swallowed); a non-empty string errors entry is joined character
by character; a non-empty dict errors entry is joined over its keys. -/
theorem status_ge_400_yields_api_error_envelope
    (creds : DatadogCredentials) (method path : String)
    (params body : Option (List (String × JValue)))
    (shaper : JValue → Except PyExc JValue)
    (remote : DDRequest → HttpResponse)
    (h : (remote (buildRequest method path creds.api_key
        creds.application_key params body)).status_code ≥ 400) :
    runTool (.ok creds) method path params body shaper remote =
      ⟨.ok (failureEnvelope ("Datadog API error ("
          ++ toString (remote (buildRequest method path creds.api_key
              creds.application_key params body)).status_code
          ++ "): "
          ++ errorMessage (remote (buildRequest method path creds.api_key
              creds.application_key params body)))),
       [buildRequest method path creds.api_key creds.application_key
          params body]⟩ ∧
    (∀ resp : HttpResponse, ∀ fields : List (String × JValue),
       ∀ ss : List String,
       resp.jsonBody = some (.obj fields) →
       fields.lookup "errors" = some (.arr (ss.map JValue.str)) →
       ss ≠ [] → errorMessage resp = String.intercalate "; " ss) ∧
    (∀ resp : HttpResponse, ∀ fields : List (String × JValue),
       resp.jsonBody = some (.obj fields) →
       (fields.lookup "errors" = none ∨
         fields.lookup "errors" = some (.arr [])) →
       errorMessage resp = resp.text) ∧
    (∀ resp : HttpResponse, resp.jsonBody = none →
       errorMessage resp = resp.text) ∧
    (∀ resp : HttpResponse, ∀ fields : List (String × JValue),
       ∀ es : List JValue,
       resp.jsonBody = some (.obj fields) →
       fields.lookup "errors" = some (.arr es) → allStrings es = none →
       errorMessage resp = resp.text) ∧
    (∀ resp : HttpResponse, ∀ fields : List (String × JValue),
       ∀ s : String,
       resp.jsonBody = some (.obj fields) →
       fields.lookup "errors" = some (.str s) → s ≠ "" →
       errorMessage resp =
         String.intercalate "; " (s.toList.map (fun c => String.mk [c]))) ∧
    (∀ resp : HttpResponse, ∀ fields : List (String × JValue),
       ∀ efields : List (String × JValue),
       resp.jsonBody = some (.obj fields) →
       fields.lookup "errors" = some (.obj efields) → efields ≠ [] →
       errorMessage resp =
         String.intercalate "; " (efields.map (fun kv => kv.1))) := by
  refine ⟨?_, ?_, ?_, ?_, ?_, ?_, ?_⟩
  · simp only [runTool, handleResponse, if_pos h]
    rfl
  · intro resp fields ss hj hl hne
    simp [errorMessage, hj, hl, jTruthy, pyJoinSemi, allStrings_map_str,
      hne]
  · intro resp fields hj hl
    rcases hl with hl | hl <;>
      simp [errorMessage, hj, hl, jTruthy]
  · intro resp hj
    simp [errorMessage, hj]
  · intro resp fields es hj hl hall
    cases es with
    | nil => simp [allStrings] at hall
    | cons e es' =>
      simp [errorMessage, hj, hl, jTruthy, pyJoinSemi, hall]
  · intro resp fields s hj hl hne
    have hse : s.isEmpty = false := by
      cases hh : s.isEmpty
      · rfl
      · exact absurd ((String.isEmpty_iff s).mp hh) hne
    simp [errorMessage, hj, hl, jTruthy, hse, pyJoinSemi]
  · intro resp fields efields hj hl hne
    simp [errorMessage, hj, hl, jTruthy, pyJoinSemi, hne]

/-- Witness for the amended C4 theorem: a concrete 404 through an
identity shaper. -/
theorem status_ge_400_witness :
    runTool (.ok ⟨"a", "b"⟩) "GET" "/api/v1/monitor" none none Except.ok
        remote404errList1 =
      ⟨.ok (failureEnvelope
          ("Datadog API error (404): \x7b\"errors\": [1]\x7d")),
       [buildRequest "GET" "/api/v1/monitor" "a" "b" none none]⟩ :=
  (status_ge_400_yields_api_error_envelope ⟨"a", "b"⟩ "GET"
    "/api/v1/monitor" none none Except.ok remote404errList1
    (by decide)).1

/-- C5: on status 204 or an empty body (with status < 400) the transport
returns the empty mapping, and the shaper of every operation maps the empty
mapping to a success envelope with empty collections and zero counts and
all-null scalar fields — never a failure envelope. -/
theorem empty_response_gives_empty_success :
    (∀ resp : HttpResponse, resp.status_code < 400 →
       (resp.status_code = 204 ∨ resp.text = "") →
       handleResponse resp = .ok (JValue.obj [])) ∧
    list_monitors_shaper (.obj []) =
      .ok (.obj [("success", .bool true), ("monitors", .arr []),
                 ("count", .num 0)]) ∧
    get_monitor_shaper (.obj []) =
      .ok (.obj [("success", .bool true),
                 ("monitor", .obj
                   [("id", .null), ("name", .null), ("type", .null),
                    ("query", .null), ("overall_state", .null),
                    ("message", .null), ("tags", .null), ("options", .null),
                    ("state", .null), ("created", .null),
                    ("modified", .null), ("creator", .null)])]) ∧
    list_hosts_shaper (.obj []) =
      .ok (.obj [("success", .bool true), ("hosts", .arr []),
                 ("count", .num 0), ("total_matching", .null),
                 ("total_returned", .null)]) ∧
    get_host_totals_shaper (.obj []) =
      .ok (.obj [("success", .bool true), ("total_active", .null),
                 ("total_up", .null)]) ∧
    query_metrics_shaper (.obj []) =
      .ok (.obj [("success", .bool true), ("series", .arr []),
                 ("count", .num 0), ("from_date", .null),
                 ("to_date", .null), ("query", .null)]) ∧
    list_active_metrics_shaper (.obj []) =
      .ok (.obj [("success", .bool true), ("metrics", .arr []),
                 ("count", .num 0)]) ∧
    search_logs_shaper (.obj []) =
      .ok (.obj [("success", .bool true), ("logs", .arr []),
                 ("count", .num 0), ("next_cursor", .null)]) ∧
    list_events_shaper (.obj []) =
      .ok (.obj [("success", .bool true), ("events", .arr []),
                 ("count", .num 0), ("next_cursor", .null)]) ∧
    search_spans_shaper (.obj []) =
      .ok (.obj [("success", .bool true), ("spans", .arr []),
                 ("count", .num 0), ("next_cursor", .null)]) ∧
    list_dashboards_shaper (.obj []) =
      .ok (.obj [("success", .bool true), ("dashboards", .arr []),
                 ("count", .num 0)]) ∧
    get_dashboard_shaper (.obj []) =
      .ok (.obj [("success", .bool true),
                 ("dashboard", .obj
                   [("id", .null), ("title", .null), ("description", .null),
                    ("layout_type", .null), ("url", .null),
                    ("widgets", .arr []), ("widget_count", .num 0),
                    ("template_variables", .null), ("created_at", .null),
                    ("modified_at", .null), ("author_handle", .null)])]) ∧
    list_incidents_shaper (.obj []) =
      .ok (.obj [("success", .bool true), ("incidents", .arr []),
                 ("count", .num 0)]) ∧
    get_incident_shaper (.obj []) =
      .ok (.obj [("success", .bool true),
                 ("incident", .obj
                   [("id", .null), ("type", .null), ("title", .null),
                    ("status", .null), ("severity", .null),
                    ("created", .null), ("modified", .null),
                    ("resolved", .null), ("detected", .null),
                    ("customer_impact_scope", .null),
                    ("customer_impact_start", .null),
                    ("customer_impact_end", .null), ("fields", .null),
                    ("notification_handles", .null)])]) ∧
    list_slos_shaper (.obj []) =
      .ok (.obj [("success", .bool true), ("slos", .arr []),
                 ("count", .num 0)]) ∧
    get_slo_shaper (.obj []) =
      .ok (.obj [("success", .bool true),
                 ("slo", .obj
                   [("id", .null), ("name", .null), ("description", .null),
                    ("type", .null), ("tags", .null), ("thresholds", .null),
                    ("query", .null), ("groups", .null),
                    ("monitor_ids", .null), ("created_at", .null),
                    ("modified_at", .null), ("creator", .null)])]) ∧
    (∀ slo_id : String, get_slo_history_shaper slo_id (.obj []) =
      .ok (.obj [("success", .bool true), ("slo_id", .str slo_id),
                 ("overall", .null), ("thresholds", .null),
                 ("series", .null)])) := by
  refine ⟨?_, rfl, rfl, rfl, rfl, rfl, rfl, rfl, rfl, rfl, rfl, rfl, rfl,
    rfl, rfl, rfl, fun _ => rfl⟩
  intro resp h1 h2
  have hne : ¬ resp.status_code ≥ 400 := by omega
  rcases h2 with h2 | h2 <;>
    simp [handleResponse, hne, h2]

/-- Witness for the C5 theorem: a concrete 204 response. -/
theorem empty_response_witness :
    handleResponse ⟨204, "x", none⟩ = .ok (JValue.obj []) :=
  empty_response_gives_empty_success.1 ⟨204, "x", none⟩ (by decide)
    (Or.inl rfl)

theorem pyTruthy_some (s : String) : pyTruthy (some s) = !s.isEmpty := rfl

theorem pyTruthy_none : pyTruthy none = false := rfl

theorem empty_string_isEmpty : "".isEmpty = true := rfl

theorem pyTruthy_getD_ne (o : Option String) (h : pyTruthy o = true) :
    o.getD "" ≠ "" := by
  cases o with
  | none => simp [pyTruthy] at h
  | some s =>
    simp only [pyTruthy, Bool.not_eq_true'] at h
    simp only [Option.getD_some]
    intro he
    rw [he] at h
    exact absurd h (by decide)

/-- C6: with an error-free context, application_key is taken from
raw["dd_application_key"] when that entry yields a (truthy) value, else
from raw["application_key"]; when neither yields a value resolution fails
with the ValueError naming the missing application key; on success the
returned application_key is the first value found. -/
theorem application_key_extraction (ctx : AccessContext)
    (raw : List (String × String)) (h : ctx.has_errors = false)
    (hraw : (ctx.access DATADOG_API_URL).raw.getD [] = raw) :
    (∀ s, raw.lookup "dd_application_key" = some s → s.isEmpty = false →
       get_datadog_credentials (some ctx) =
         .ok ⟨(ctx.access DATADOG_API_URL).access_token, s⟩) ∧
    (pyTruthy (raw.lookup "dd_application_key") = false →
       ∀ s, raw.lookup "application_key" = some s → s.isEmpty = false →
       get_datadog_credentials (some ctx) =
         .ok ⟨(ctx.access DATADOG_API_URL).access_token, s⟩) ∧
    (pyTruthy (raw.lookup "dd_application_key") = false →
       pyTruthy (raw.lookup "application_key") = false →
       get_datadog_credentials (some ctx) =
         .error (.valueError missingAppKeyMsg)) := by
  refine ⟨?_, ?_, ?_⟩
  · intro s hs hempty
    simp [get_datadog_credentials, h, hraw, pyOrStr, hs, pyTruthy_some,
      hempty]
  · intro hdd s hs hempty
    simp [get_datadog_credentials, h, hraw, pyOrStr, hdd, hs,
      pyTruthy_some, hempty]
  · intro hdd happ
    simp [get_datadog_credentials, h, hraw, pyOrStr, hdd, happ]

/-- Witness for the C6 theorem: ctxOK takes the dd_application_key
branch. -/
theorem application_key_extraction_witness :
    get_datadog_credentials (some ctxOK) = .ok ⟨"api-key-1", "app-key-1"⟩ :=
  (application_key_extraction ctxOK [("dd_application_key", "app-key-1")]
    rfl rfl).1 "app-key-1" rfl rfl

/-- A concrete context whose token response carries an empty access_token
but a valid application key. -/
def ctxEmptyToken : AccessContext :=
  { has_errors := false
    errors_repr := ""
    access := fun _ => ⟨"", some [("dd_application_key", "app-key-1")]⟩ }

/-- C8 counterexample: a TokenResponse with empty access_token still
resolves successfully — the resolver performs no api_key validation and
returns Credentials whose api_key is the empty string, where the claim
says resolution must fail. -/
theorem empty_access_token_still_resolves :
    get_datadog_credentials (some ctxEmptyToken) = .ok ⟨"", "app-key-1"⟩ :=
  rfl

/-- C8 amended: the resolver copies access_token into api_key without any
presence or non-emptiness check: whenever the application-key lookup
yields a value, resolution succeeds and api_key equals access_token
verbatim, empty or not. -/
theorem api_key_copied_unvalidated (ctx : AccessContext)
    (h : ctx.has_errors = false)
    (h2 : pyTruthy (pyOrStr
        (((ctx.access DATADOG_API_URL).raw.getD []).lookup
          "dd_application_key")
        (((ctx.access DATADOG_API_URL).raw.getD []).lookup
          "application_key")) = true) :
    get_datadog_credentials (some ctx) =
      .ok ⟨(ctx.access DATADOG_API_URL).access_token,
           (pyOrStr
             (((ctx.access DATADOG_API_URL).raw.getD []).lookup
               "dd_application_key")
             (((ctx.access DATADOG_API_URL).raw.getD []).lookup
               "application_key")).getD ""⟩ := by
  simp [get_datadog_credentials, h, h2]

/-- Witness for the amended C8 theorem at ctxEmptyToken. -/
theorem api_key_copied_unvalidated_witness :
    get_datadog_credentials (some ctxEmptyToken) =
      .ok ⟨(ctxEmptyToken.access DATADOG_API_URL).access_token,
           (pyOrStr
             (((ctxEmptyToken.access DATADOG_API_URL).raw.getD []).lookup
               "dd_application_key")
             (((ctxEmptyToken.access DATADOG_API_URL).raw.getD []).lookup
               "application_key")).getD ""⟩ :=
  api_key_copied_unvalidated ctxEmptyToken rfl rfl

/-- C9: falsy application-key entries are treated as absent: an empty
dd_application_key falls back to application_key; a missing/None raw
attribute behaves as the empty mapping (resolvable error, no crash); and
a successful resolution always carries a non-empty application_key. -/
theorem falsy_application_keys_treated_absent (ctx : AccessContext) :
    (ctx.has_errors = false →
      ((ctx.access DATADOG_API_URL).raw.getD []).lookup
          "dd_application_key" = some "" →
      ∀ s, ((ctx.access DATADOG_API_URL).raw.getD []).lookup
          "application_key" = some s → s.isEmpty = false →
      get_datadog_credentials (some ctx) =
        .ok ⟨(ctx.access DATADOG_API_URL).access_token, s⟩) ∧
    (ctx.has_errors = false → (ctx.access DATADOG_API_URL).raw = none →
      get_datadog_credentials (some ctx) =
        .error (.valueError missingAppKeyMsg)) ∧
    (∀ c, get_datadog_credentials (some ctx) = .ok c →
      c.application_key ≠ "") := by
  refine ⟨?_, ?_, ?_⟩
  · intro h hdd s hs hempty
    simp [get_datadog_credentials, h, pyOrStr, hdd, hs, pyTruthy_some,
      empty_string_isEmpty, hempty]
  · intro h hraw
    simp [get_datadog_credentials, h, hraw, pyOrStr, pyTruthy_none]
  · intro c hc
    simp only [get_datadog_credentials] at hc
    split at hc
    · exact Except.noConfusion hc
    · split at hc
      · rename_i htr
        cases hc
        exact pyTruthy_getD_ne _ htr
      · exact Except.noConfusion hc

/-- A concrete context whose raw mapping has an empty dd_application_key
entry and a non-empty application_key entry. -/
def ctxFallback : AccessContext :=
  { has_errors := false
    errors_repr := ""
    access := fun _ => ⟨"api-key-2",
      some [("dd_application_key", ""), ("application_key", "app-key-2")]⟩ }

/-- Witness for the C9 theorem: an empty dd_application_key entry falls
back to application_key on a concrete context. -/
theorem falsy_application_keys_witness :
    get_datadog_credentials (some ctxFallback) =
      .ok ⟨"api-key-2", "app-key-2"⟩ :=
  (falsy_application_keys_treated_absent ctxFallback).1 rfl rfl "app-key-2"
    rfl rfl

theorem except_bind_ok {α β : Type} (a : α) (f : α → Except PyExc β) :
    (Except.ok a : Except PyExc α) >>= f = f a := rfl

theorem except_bind_err {α β : Type} (e : PyExc)
    (f : α → Except PyExc β) :
    (Except.error e : Except PyExc α) >>= f = Except.error e := rfl

/-- The value at path meta.page.after of a raw payload, following the
spec wording: null as soon as an intermediate key is missing.  This
definition is written from the spec text and compared against the
extraction chain of the code. -/
def specMetaPageAfter (data : JValue) : JValue :=
  match data with
  | .obj fs =>
    match fs.lookup "meta" with
    | some (.obj ms) =>
      match ms.lookup "page" with
      | some (.obj ps) => (ps.lookup "after").getD .null
      | _ => .null
    | _ => .null
  | _ => .null

theorem metaPageAfter_ok (data v : JValue)
    (h : metaPageAfter data = .ok v) : v = specMetaPageAfter data := by
  cases data with
  | null => simp [metaPageAfter, pyGetD, except_bind_err] at h
  | bool b => simp [metaPageAfter, pyGetD, except_bind_err] at h
  | num n => simp [metaPageAfter, pyGetD, except_bind_err] at h
  | str s => simp [metaPageAfter, pyGetD, except_bind_err] at h
  | arr es => simp [metaPageAfter, pyGetD, except_bind_err] at h
  | obj fs =>
    cases hm : fs.lookup "meta" with
    | none =>
      have hcomp : metaPageAfter (.obj fs) = .ok .null := by
        simp [metaPageAfter, pyGetD, pyGet, hm, except_bind_ok,
          List.lookup]
      rw [hcomp] at h
      injection h with h
      subst h
      simp [specMetaPageAfter, hm]
    | some mv =>
      cases mv with
      | null => simp [metaPageAfter, pyGetD, hm, except_bind_ok,
          except_bind_err] at h
      | bool b => simp [metaPageAfter, pyGetD, hm, except_bind_ok,
          except_bind_err] at h
      | num n => simp [metaPageAfter, pyGetD, hm, except_bind_ok,
          except_bind_err] at h
      | str s => simp [metaPageAfter, pyGetD, hm, except_bind_ok,
          except_bind_err] at h
      | arr es => simp [metaPageAfter, pyGetD, hm, except_bind_ok,
          except_bind_err] at h
      | obj ms =>
        cases hp : ms.lookup "page" with
        | none =>
          have hcomp : metaPageAfter (.obj fs) = .ok .null := by
            simp [metaPageAfter, pyGetD, pyGet, hm, hp, except_bind_ok,
              List.lookup]
          rw [hcomp] at h
          injection h with h
          subst h
          simp [specMetaPageAfter, hm, hp]
        | some pv =>
          cases pv with
          | null => simp [metaPageAfter, pyGetD, pyGet, hm, hp,
              except_bind_ok, except_bind_err] at h
          | bool b => simp [metaPageAfter, pyGetD, pyGet, hm, hp,
              except_bind_ok, except_bind_err] at h
          | num n => simp [metaPageAfter, pyGetD, pyGet, hm, hp,
              except_bind_ok, except_bind_err] at h
          | str s => simp [metaPageAfter, pyGetD, pyGet, hm, hp,
              except_bind_ok, except_bind_err] at h
          | arr es => simp [metaPageAfter, pyGetD, pyGet, hm, hp,
              except_bind_ok, except_bind_err] at h
          | obj ps =>
            have hcomp : metaPageAfter (.obj fs) =
                .ok ((ps.lookup "after").getD .null) := by
              simp [metaPageAfter, pyGetD, pyGet, hm, hp, except_bind_ok]
            rw [hcomp] at h
            injection h with h
            subst h
            simp [specMetaPageAfter, hm, hp]

theorem cursorShaper_next_cursor (key : String)
    (hkey : ("next_cursor" == key) = false)
    (f : JValue → Except PyExc JValue) (data r : JValue)
    (h : cursorShaper key f data = .ok r) :
    envGet r "next_cursor" = some (specMetaPageAfter data) := by
  cases h1 : pyGetD data "data" (.arr []) with
  | error e => simp [cursorShaper, h1, except_bind_err] at h
  | ok raw =>
    cases h2 : pyIter raw with
    | error e =>
      simp [cursorShaper, h1, h2, except_bind_ok, except_bind_err] at h
    | ok items =>
      cases h3 : List.mapM.loop f items [] with
      | error e =>
        simp [cursorShaper, h1, h2, h3, except_bind_ok,
          except_bind_err] at h
      | ok shaped =>
        cases h4 : metaPageAfter data with
        | error e =>
          simp [cursorShaper, h1, h2, h3, h4, except_bind_ok,
            except_bind_err] at h
        | ok cursor =>
          have hr : r = .obj [("success", .bool true), (key, .arr shaped),
              ("count", .num (shaped.length : Int)),
              ("next_cursor", cursor)] := by
            have hcomp : cursorShaper key f data =
                .ok (.obj [("success", .bool true), (key, .arr shaped),
                  ("count", .num (shaped.length : Int)),
                  ("next_cursor", cursor)]) := by
              simp [cursorShaper, h1, h2, h3, h4, except_bind_ok]
            rw [hcomp] at h
            injection h with h
            exact h.symm
          subst hr
          simp [envGet, List.lookup, hkey,
            metaPageAfter_ok data cursor h4]

/-- C7: for search_logs, list_events and search_spans, the next_cursor
field of every successful shaping equals the value at meta.page.after in
the raw payload, null when any of the intermediate keys meta, page or
after is missing. -/
theorem next_cursor_eq_meta_page_after (data r : JValue) :
    (search_logs_shaper data = .ok r →
       envGet r "next_cursor" = some (specMetaPageAfter data)) ∧
    (list_events_shaper data = .ok r →
       envGet r "next_cursor" = some (specMetaPageAfter data)) ∧
    (search_spans_shaper data = .ok r →
       envGet r "next_cursor" = some (specMetaPageAfter data)) :=
  ⟨fun h => cursorShaper_next_cursor "logs" (by decide) shapeLogItem
      data r h,
   fun h => cursorShaper_next_cursor "events" (by decide) shapeEventItem
      data r h,
   fun h => cursorShaper_next_cursor "spans" (by decide) shapeSpanItem
      data r h⟩

/-- A concrete cursor-carrying payload and its search_logs shaping, used
as witness input for the C7 theorem. -/
def cursorSampleData : JValue :=
  .obj [("data", .arr []),
        ("meta", .obj [("page", .obj [("after", .str "cur-1")])])]

def cursorSampleResult : JValue :=
  .obj [("success", .bool true), ("logs", .arr []), ("count", .num 0),
        ("next_cursor", .str "cur-1")]

/-- Witness for the C7 theorem at a concrete payload. -/
theorem next_cursor_witness :
    envGet cursorSampleResult "next_cursor" =
      some (specMetaPageAfter cursorSampleData) :=
  (next_cursor_eq_meta_page_after cursorSampleData cursorSampleResult).1
    rfl

/-- C10: booleans are serialized to the query as the lowercase strings
produced by str(b).lower(); list_hosts carries include_muted_hosts_data
in every request it issues (so the default false is sent as "false");
the get_slo parameter construction always carries
with_configured_alert_ids; list_dashboards sends filter[shared] and
filter[deleted] exactly when the caller sets them (the outbound lookup
mirrors the optional argument). -/
theorem boolean_param_serialization
    (access_ctx : Option AccessContext) (remote : DDRequest → HttpResponse)
    (filter sort_field sort_dir : Option String) (start count : Int)
    (imhd wcai : Bool) (filter_shared filter_deleted : Option Bool)
    (dcount dstart : Int) :
    (∀ req ∈ (list_hosts access_ctx remote filter sort_field sort_dir
        start count imhd).calls,
      (req.params.getD []).lookup "include_muted_hosts_data" =
        some (.str (pyBoolStr imhd))) ∧
    (dropNone (get_slo_params wcai)).lookup "with_configured_alert_ids" =
      some (.str (pyBoolStr wcai)) ∧
    (dropNone (list_dashboards_params filter_shared filter_deleted dcount
        dstart)).lookup "filter[shared]" =
      filter_shared.map (fun b => .str (pyBoolStr b)) ∧
    (dropNone (list_dashboards_params filter_shared filter_deleted dcount
        dstart)).lookup "filter[deleted]" =
      filter_deleted.map (fun b => .str (pyBoolStr b)) ∧
    pyBoolStr false = "false" ∧ pyBoolStr true = "true" := by
  refine ⟨?_, ?_, ?_, ?_, rfl, rfl⟩
  · intro req hreq
    cases hc : get_datadog_credentials access_ctx with
    | error e => simp [list_hosts, runTool, hc] at hreq
    | ok creds =>
      simp only [list_hosts, runTool, hc, List.mem_singleton] at hreq
      subst hreq
      rcases filter with _ | fv <;> rcases sort_field with _ | sfv <;>
        rcases sort_dir with _ | sdv <;> rfl
  · rfl
  · rcases filter_shared with _ | b <;> rcases filter_deleted with _ | b2 <;>
      rfl
  · rcases filter_shared with _ | b <;> rcases filter_deleted with _ | b2 <;>
      rfl

/-- Witness for the C10 theorem: the default list_hosts invocation sends
include_muted_hosts_data as "false". -/
theorem boolean_param_serialization_witness :
    ((buildRequest "GET" "/api/v1/hosts" "api-key-1" "app-key-1"
        (some (list_hosts_params none none none 0 100 false))
        none).params.getD []).lookup "include_muted_hosts_data" =
      some (.str (pyBoolStr false)) :=
  (boolean_param_serialization (some ctxOK) remoteEmpty none none none
      0 100 false false none none 100 0).1
    (buildRequest "GET" "/api/v1/hosts" "api-key-1" "app-key-1"
      (some (list_hosts_params none none none 0 100 false)) none)
    (List.mem_singleton.mpr rfl)

end DatadogMCP
